import Mathlib

/-!
Shallow embedding of `src/Mod/Fem/femexamples/frequency_cylindrical_shell.py`.

The file under verification is a linear orchestration script: it builds a
FreeCAD document object graph (cylinder, downgraded shell face, FEM analysis
container, solver, material, displacement constraint, shell thickness, Gmsh
mesh) by calling into the host application's document API.  We embed the
document object model as an explicit state (a list of named objects, each
carrying a property association list), the host console as two string lists
(warnings and messages), and the script as a state-passing function.

External collaborators (the FreeCAD document API, `Draft.downgrade`,
the `ObjectsFem` factory functions, `manager.init_doc`, the Gmsh mesher) are
code of the repository that is not under `src/`; their effects are modelled
from the spec where the spec describes them, and each such definition says so
in its doc comment.  The Gmsh status string returned by
`GmshTools.create_mesh` is an input parameter of the embedded `setup`, since
it is produced by the external mesher.

The embedding covers the `doc=None` path of `setup` (a freshly initialised,
empty document), which is the documented invocation (`setup()` from the
console); the GUI view-framing calls on lines 84-86 touch only the external
3D view and have no document or console effect, so they do not appear in the
state.  Python's scoping is modelled faithfully: `solver_obj` is an
`Option String` that is `none` when no branch of the solver `if`/`elif`
assigned it, and referencing it then raises an unbound-local error, embedded
as `Except.error`.
-/

namespace FreqCylShell

/-- A value stored on a document object property: FreeCAD property values are
strings, booleans, numbers (Python ints and floats, embedded as `Int` and
`ℚ`), string-to-string mappings (the `Material` dictionary), sub-shape
reference lists (pairs of object name and sub-element name), and group member
name lists. -/
inductive PropValue where
  | str (s : String)
  | bool (b : Bool)
  | int (n : Int)
  | rat (q : ℚ)
  | dict (entries : List (String × String))
  | refs (rs : List (String × String))
  | names (ns : List String)
deriving DecidableEq, Repr

/-- Update a string-keyed association list: replace the first binding of the
key, or append a new binding (assignment into a Python dict / host property
table). -/
def setDictEntry (l : List (String × String)) (k v : String) :
    List (String × String) :=
  match l with
  | [] => [(k, v)]
  | (k', v') :: rest =>
      if k' = k then (k, v) :: rest else (k', v') :: setDictEntry rest k v

/-- Update a property association list: replace the first binding of the key,
or append a new binding. -/
def setPropEntry (l : List (String × PropValue)) (k : String) (v : PropValue) :
    List (String × PropValue) :=
  match l with
  | [] => [(k, v)]
  | (k', v') :: rest =>
      if k' = k then (k, v) :: rest else (k', v') :: setPropEntry rest k v

/-- A document object: a name (unique in the document), a type tag (the
string passed to `doc.addObject`, or the tag of the factory that made it),
and its properties. -/
structure DocObject where
  name : String
  typeTag : String
  props : List (String × PropValue)
deriving DecidableEq, Repr

/-- Read a property of an object. -/
def DocObject.getProp (o : DocObject) (k : String) : Option PropValue :=
  (o.props.find? (fun p => p.1 = k)).map Prod.snd

/-- The document: the host's root container, an ordered list of the objects
it owns. -/
structure Document where
  objects : List DocObject
deriving DecidableEq, Repr

/-- `doc.addObject(typeTag, name)`: append a fresh object with no properties
set.  (In the fresh-document path of `setup` every requested name is unused,
so the host's rename-on-collision never fires.) -/
def Document.addObject (d : Document) (typeTag nm : String) : Document :=
  ⟨d.objects ++ [⟨nm, typeTag, []⟩]⟩

/-- Append a fresh object that already carries initial properties (used by
the modelled `ObjectsFem` factories). -/
def Document.addObjectWith (d : Document) (typeTag nm : String)
    (props : List (String × PropValue)) : Document :=
  ⟨d.objects ++ [⟨nm, typeTag, props⟩]⟩

/-- `doc.removeObject(name)`: delete the object of that name. -/
def Document.removeObject (d : Document) (nm : String) : Document :=
  ⟨d.objects.filter (fun o => o.name ≠ nm)⟩

/-- Look an object up by name (`doc.Name` attribute access). -/
def Document.getObject (d : Document) (nm : String) : Option DocObject :=
  d.objects.find? (fun o => o.name = nm)

/-- Assign a property on the named object (`obj.Prop = value`). -/
def Document.setProp (d : Document) (objName k : String) (v : PropValue) :
    Document :=
  ⟨d.objects.map (fun o =>
      if o.name = objName then ⟨o.name, o.typeTag, setPropEntry o.props k v⟩
      else o)⟩

/-- Read a property of the named object. -/
def Document.getProp (d : Document) (objName k : String) : Option PropValue :=
  (d.getObject objName).bind (fun o => o.getProp k)

/-- The host console: FreeCAD.Console warnings and messages, in print
order. -/
structure Console where
  warnings : List String
  messages : List String
deriving DecidableEq, Repr

/-- `FreeCAD.Console.PrintWarning`. -/
def Console.printWarning (c : Console) (s : String) : Console :=
  ⟨c.warnings ++ [s], c.messages⟩

/-- `FreeCAD.Console.PrintMessage`. -/
def Console.printMessage (c : Console) (s : String) : Console :=
  ⟨c.warnings, c.messages ++ [s]⟩

/-- The construction steps of `setup` that the trace observes, in source
order: object-creation/configuration blocks, document recomputations, and the
warning branch for an unrecognized solver type. -/
inductive Step where
  | createCylinder
  | recompute
  | downgradePrune
  | createAnalysis
  | createSolver
  | solverWarning
  | createMaterial
  | createConstraint
  | createThickness
  | createMesh
deriving DecidableEq, Repr

/-- The state threaded through `setup`: the document, the console, the log of
`analysis.addObject` requests (one entry per call, in call order, each the
name of the object passed), and the trace of construction steps reached. -/
structure SetupState where
  doc : Document
  console : Console
  attachLog : List String
  trace : List Step
deriving DecidableEq, Repr

/-- A Python runtime error raised by the script: referencing a local variable
no branch assigned (`UnboundLocalError`).  The error carries the state at the
raise point, since the document and console are external objects whose
mutations persist past the exception. -/
inductive SetupError where
  | unboundLocal (varName : String) (st : SetupState)
deriving DecidableEq, Repr

/-- Type tag of the face objects produced by the downgrade decomposition. -/
def faceTag : String := "Part::Face"

/-- Type tag of the solver object made by `ObjectsFem.makeSolverCalculix`. -/
def solverCalculixTag : String := "Fem::SolverCalculix"

/-- Type tag of the solver object made by
`ObjectsFem.makeSolverCalculixCcxTools`. -/
def solverCcxToolsTag : String := "Fem::SolverCcxTools"

/-- The type tags that mark an object as a solver object. -/
def solverTags : List String := [solverCalculixTag, solverCcxToolsTag]

/-- Modelled from the spec (the `manager.add_explanation_obj` helper is not
under `src/`): it stores the example's explanation text in a text object in
the document; neither a face, a solver, nor an analysis member. -/
def addExplanationObj (d : Document) : Document :=
  d.addObject "App::Text" "FEM_example_explanation"

/-- Modelled from the spec §4.2 (`Draft.downgrade` is repository code not
under `src/`): called with `delete=True` on the cylinder solid, it decomposes
the solid into its boundary faces — auto-named "Face", "Face001", "Face002"
by the host's naming convention, which the script's subsequent
`removeObject("Face001")`/`removeObject("Face002")` calls and `doc.Face`
accesses rely on — and deletes the original solid. -/
def draftDowngradeCylinder (d : Document) : Document :=
  (((d.removeObject "Cylinder").addObject faceTag "Face").addObject
      faceTag "Face001").addObject faceTag "Face002"

/-- Modelled from the spec §3 (`ObjectsFem.makeAnalysis` is repository code
not under `src/`): creates the analysis container, which aggregates its
members as a flat set, initially empty. -/
def makeAnalysis (d : Document) : Document :=
  d.addObjectWith "Fem::FemAnalysis" "Analysis" [("Group", PropValue.names [])]

/-- Modelled from the spec §3 (`ObjectsFem.makeSolverCalculix` is repository
code not under `src/`): creates a solver object; every solver parameter the
claims mention is assigned explicitly by `setup` afterwards. -/
def makeSolverCalculix (d : Document) : Document :=
  d.addObject solverCalculixTag "SolverCalculiX"

/-- Modelled from the spec §3 (`ObjectsFem.makeSolverCalculixCcxTools` is
repository code not under `src/`): creates a solver object; every solver
parameter the claims mention is assigned explicitly by `setup` afterwards. -/
def makeSolverCalculixCcxTools (d : Document) : Document :=
  d.addObject solverCcxToolsTag "CalculiXccxTools"

/-- Modelled from the spec §3 (`ObjectsFem.makeMaterialSolid` is repository
code not under `src/`): creates a material object holding a property mapping.
The host's default entries are irrelevant here because `setup` overwrites
every key it later reads, so the initial mapping is modelled empty. -/
def makeMaterialSolid (d : Document) : Document :=
  d.addObjectWith "Fem::MaterialSolid" "MechanicalMaterial"
    [("Material", PropValue.dict [])]

/-- Modelled from the spec §3 (`ObjectsFem.makeConstraintDisplacement` is
repository code not under `src/`): creates a displacement-constraint object;
all per-axis flags and values are assigned explicitly by `setup`. -/
def makeConstraintDisplacement (d : Document) : Document :=
  d.addObject "Fem::ConstraintDisplacement" "Fix_Z"

/-- Modelled from the spec §3 (`ObjectsFem.makeElementGeometry2D` is
repository code not under `src/`): creates the shell-thickness property
object, storing the thickness value passed by the caller (a Python int
literal `10` at the call site in `setup`). -/
def makeElementGeometry2D (d : Document) (thickness : Int) : Document :=
  d.addObjectWith "Fem::ElementGeometry2D" "ShellThickness"
    [("Thickness", PropValue.int thickness)]

/-- Modelled from the spec §3 (`ObjectsFem.makeMeshGmsh` is repository code
not under `src/`): creates the mesh object; all meshing parameters are
assigned explicitly by `setup`. -/
def makeMeshGmsh (d : Document) : Document :=
  d.addObject "Fem::FemMeshGmsh" "Cylinder_Shell_Mesh"

/-- Modelled from the spec §3 (`analysis.addObject` is host group behaviour):
the analysis aggregates members "as a flat, unordered set", so a repeated
attach request for an object already in the member list leaves the list
unchanged; the request itself is recorded by the caller in `attachLog`. -/
def analysisAddObject (d : Document) (objName : String) : Document :=
  match d.getProp "Analysis" "Group" with
  | some (PropValue.names ns) =>
      if objName ∈ ns then d
      else d.setProp "Analysis" "Group" (PropValue.names (ns ++ [objName]))
  | _ => d

/-- The member set of the analysis container: the names in its group. -/
def analysisMembers (d : Document) : List String :=
  match d.getProp "Analysis" "Group" with
  | some (PropValue.names ns) => ns
  | _ => []

/-- Whether the named object of the document is a solver object. -/
def Document.isSolverObj (d : Document) (nm : String) : Bool :=
  match d.getObject nm with
  | some o => solverTags.contains o.typeTag
  | none => false

/-- The solver members of the analysis container. -/
def solverMembers (d : Document) : List String :=
  (analysisMembers d).filter d.isSolverObj

/-- Number of face-type objects in the document. -/
def faceCount (d : Document) : Nat :=
  (d.objects.filter (fun o => o.typeTag = faceTag)).length

/-- Read one entry of the material object's property mapping. -/
def materialEntry (d : Document) (k : String) : Option String :=
  match d.getProp "MechanicalMaterial" "Material" with
  | some (PropValue.dict m) => (m.find? (fun p => p.1 = k)).map Prod.snd
  | _ => none

/-- State at entry of `setup` on the `doc=None` path: lines 69-76.
`init_doc` (repository code not under `src/`, modelled from the spec's
"Document acquisition/initialization") yields a fresh empty document; then
the explanation object is added. -/
def initState : SetupState :=
  ⟨addExplanationObj ⟨[]⟩, ⟨[], []⟩, [], []⟩

/-- Lines 80-92: create the cylinder (radius 5000, height 5000), recompute,
downgrade it to its boundary faces deleting the solid, remove the two
auxiliary faces "Face001" and "Face002", recompute.  (Lines 84-86 manipulate
only the GUI 3D view and have no document effect.) -/
def geometryStep (st : SetupState) : SetupState :=
  let d := st.doc.addObject "Part::Cylinder" "Cylinder"
  let d := d.setProp "Cylinder" "Radius" (PropValue.int 5000)
  let d := d.setProp "Cylinder" "Height" (PropValue.int 5000)
  let tr := st.trace ++ [Step.createCylinder, Step.recompute]
  let d := draftDowngradeCylinder d
  let d := d.removeObject "Face001"
  let d := d.removeObject "Face002"
  let tr := tr ++ [Step.downgradePrune, Step.recompute]
  ⟨d, st.console, st.attachLog, tr⟩

/-- Line 95: create the analysis container. -/
def analysisStep (st : SetupState) : SetupState :=
  ⟨makeAnalysis st.doc, st.console, st.attachLog,
    st.trace ++ [Step.createAnalysis]⟩

/-- The warning printed on line 104-107 for an unrecognized solver type. -/
def solverWarningMsg (solvertype : String) : String :=
  "Not known or not supported solver type: " ++ solvertype ++
    ". No solver object was created.\n"

/-- Lines 98-107: the solver `if`/`elif`/`else`.  For "calculix" and
"ccxtools" a solver object is created (and for "ccxtools" its `WorkingDir`
is set to the empty string) and the Python local `solver_obj` is bound to it;
otherwise a warning is printed and `solver_obj` stays unbound (`none`). -/
def solverCreate (solvertype : String) (st : SetupState) :
    SetupState × Option String :=
  if solvertype = "calculix" then
    (⟨makeSolverCalculix st.doc, st.console, st.attachLog,
        st.trace ++ [Step.createSolver]⟩, some "SolverCalculiX")
  else if solvertype = "ccxtools" then
    let d := makeSolverCalculixCcxTools st.doc
    let d := d.setProp "CalculiXccxTools" "WorkingDir" (PropValue.str "")
    (⟨d, st.console, st.attachLog, st.trace ++ [Step.createSolver]⟩,
      some "CalculiXccxTools")
  else
    (⟨st.doc, st.console.printWarning (solverWarningMsg solvertype),
        st.attachLog, st.trace ++ [Step.solverWarning]⟩, none)

/-- Lines 108-117: the solver-parameter assignments, guarded by
`solvertype == "calculix" or solvertype == "ccxtools"`; skipped for any other
solver type. -/
def solverParams (solvertype : String) (solverObj : Option String)
    (st : SetupState) : SetupState :=
  if solvertype = "calculix" ∨ solvertype = "ccxtools" then
    match solverObj with
    | some n =>
        let d := st.doc.setProp n "SplitInputWriter" (PropValue.bool false)
        let d := d.setProp n "AnalysisType" (PropValue.str "frequency")
        let d := d.setProp n "GeometricalNonlinearity" (PropValue.str "linear")
        let d := d.setProp n "ThermoMechSteadyState" (PropValue.bool false)
        let d := d.setProp n "MatrixSolverType" (PropValue.str "default")
        let d := d.setProp n "IterationsControlParameterTimeUse"
          (PropValue.bool false)
        let d := d.setProp n "EigenmodesCount" (PropValue.int 10)
        let d := d.setProp n "EigenmodeHighLimit" (PropValue.rat 1000000.0)
        let d := d.setProp n "EigenmodeLowLimit" (PropValue.rat 0.01)
        ⟨d, st.console, st.attachLog, st.trace⟩
    | none => st
  else st

/-- Line 118: `analysis.addObject(solver_obj)`, executed unconditionally.
When no branch of the solver `if`/`elif` assigned `solver_obj`, this very
reference raises Python's unbound-local error. -/
def attachSolver (solverObj : Option String) (st : SetupState) :
    Except SetupError SetupState :=
  match solverObj with
  | none => Except.error (SetupError.unboundLocal "solver_obj" st)
  | some n =>
      Except.ok ⟨analysisAddObject st.doc n, st.console,
        st.attachLog ++ [n], st.trace⟩

/-- Lines 120-130: create the material, attach it to the analysis, copy its
property mapping out, set the four entries, write the mapping back, and
attach the same material object to the analysis a second time. -/
def materialStep (st : SetupState) : SetupState :=
  let d := makeMaterialSolid st.doc
  let d := analysisAddObject d "MechanicalMaterial"
  let log := st.attachLog ++ ["MechanicalMaterial"]
  let mat :=
    match d.getProp "MechanicalMaterial" "Material" with
    | some (PropValue.dict m) => m
    | _ => []
  let mat := setDictEntry mat "Name" "Steel-Generic"
  let mat := setDictEntry mat "YoungsModulus" "210 GPa"
  let mat := setDictEntry mat "PoissonRatio" "0.30"
  let mat := setDictEntry mat "Density" "7900 kg/m^3"
  let d := d.setProp "MechanicalMaterial" "Material" (PropValue.dict mat)
  let d := analysisAddObject d "MechanicalMaterial"
  let log := log ++ ["MechanicalMaterial"]
  ⟨d, st.console, log, st.trace ++ [Step.createMaterial]⟩

/-- Lines 132-144: create the displacement constraint "Fix_Z", point it at
edge "Edge2" of the remaining face, set the per-axis flags and displacement
values (x and y free, z fixed at 0.0), and attach it to the analysis. -/
def constraintStep (st : SetupState) : SetupState :=
  let d := makeConstraintDisplacement st.doc
  let d := d.setProp "Fix_Z" "References" (PropValue.refs [("Face", "Edge2")])
  let d := d.setProp "Fix_Z" "xFix" (PropValue.bool false)
  let d := d.setProp "Fix_Z" "xFree" (PropValue.bool true)
  let d := d.setProp "Fix_Z" "xDisplacement" (PropValue.rat 0.0)
  let d := d.setProp "Fix_Z" "yFix" (PropValue.bool false)
  let d := d.setProp "Fix_Z" "yFree" (PropValue.bool true)
  let d := d.setProp "Fix_Z" "yDisplacement" (PropValue.rat 0.0)
  let d := d.setProp "Fix_Z" "zFix" (PropValue.bool true)
  let d := d.setProp "Fix_Z" "zFree" (PropValue.bool false)
  let d := d.setProp "Fix_Z" "zDisplacement" (PropValue.rat 0.0)
  let d := analysisAddObject d "Fix_Z"
  ⟨d, st.console, st.attachLog ++ ["Fix_Z"],
    st.trace ++ [Step.createConstraint]⟩

/-- Lines 146-148: create the shell-thickness object with thickness 10 and
attach it to the analysis. -/
def thicknessStep (st : SetupState) : SetupState :=
  let d := makeElementGeometry2D st.doc 10
  let d := analysisAddObject d "ShellThickness"
  ⟨d, st.console, st.attachLog ++ ["ShellThickness"],
    st.trace ++ [Step.createThickness]⟩

/-- Lines 150-166: create the Gmsh mesh object targeting the remaining face,
set the meshing parameters, run the external mesher (whose status string —
the `gmshStatus` parameter of the embedding — is printed to the console
unconditionally), and attach the mesh to the analysis. -/
def meshStep (gmshStatus : String) (st : SetupState) : SetupState :=
  let d := makeMeshGmsh st.doc
  let d := d.setProp "Cylinder_Shell_Mesh" "Part" (PropValue.str "Face")
  let d := d.setProp "Cylinder_Shell_Mesh" "ElementDimension"
    (PropValue.str "2D")
  let d := d.setProp "Cylinder_Shell_Mesh" "ElementOrder" (PropValue.str "2nd")
  let d := d.setProp "Cylinder_Shell_Mesh" "Algorithm2D"
    (PropValue.str "Packing Parallelograms")
  let d := d.setProp "Cylinder_Shell_Mesh" "RecombinationAlgorithm"
    (PropValue.str "Simple")
  let d := d.setProp "Cylinder_Shell_Mesh" "HighOrderOptimize"
    (PropValue.str "Optimization")
  let d := d.setProp "Cylinder_Shell_Mesh" "RecombineAll" (PropValue.bool true)
  let d := d.setProp "Cylinder_Shell_Mesh" "SecondOrderLinear"
    (PropValue.bool true)
  let d := d.setProp "Cylinder_Shell_Mesh" "CharacteristicLengthMax"
    (PropValue.str "300.0 mm")
  let c := st.console.printMessage gmshStatus
  let d := analysisAddObject d "Cylinder_Shell_Mesh"
  ⟨d, c, st.attachLog ++ ["Cylinder_Shell_Mesh"],
    st.trace ++ [Step.createMesh]⟩

/-- Line 167: the final `doc.recompute()`. -/
def finalRecomputeStep (st : SetupState) : SetupState :=
  ⟨st.doc, st.console, st.attachLog, st.trace ++ [Step.recompute]⟩

/-- The `setup(doc=None, solvertype=...)` entry point (lines 66-168),
embedded on the fresh-document path.  `gmshStatus` is the status string the
external mesher returns.  On success the result carries the final document
(the handle `setup` returns), the console, the attach-request log, and the
step trace; an unbound-local reference yields `Except.error`. -/
def setup (solvertype : String) (gmshStatus : String) :
    Except SetupError SetupState :=
  let st := geometryStep initState
  let st := analysisStep st
  let p := solverCreate solvertype st
  let st := solverParams solvertype p.2 p.1
  match attachSolver p.2 st with
  | Except.error e => Except.error e
  | Except.ok st =>
      let st := materialStep st
      let st := constraintStep st
      let st := thicknessStep st
      let st := meshStep gmshStatus st
      let st := finalRecomputeStep st
      Except.ok st

/-- The state carried by an unbound-local error, if the run failed. -/
def errorState : Except SetupError SetupState → Option SetupState
  | Except.error (SetupError.unboundLocal _ st) => some st
  | Except.ok _ => none

/-- The variable name of an unbound-local error, if the run failed. -/
def errorVar : Except SetupError SetupState → Option String
  | Except.error (SetupError.unboundLocal v _) => some v
  | Except.ok _ => none

/-- The full step trace of a completing run of `setup` (either recognized
solver type): the construction blocks in source order, with the two interior
recomputations (lines 83 and 92) and the final one (line 167). -/
def fullTrace : List Step :=
  [Step.createCylinder, Step.recompute, Step.downgradePrune, Step.recompute,
   Step.createAnalysis, Step.createSolver, Step.createMaterial,
   Step.createConstraint, Step.createThickness, Step.createMesh,
   Step.recompute]

/-- The step order claimed by the spec: cylinder creation, downgrade and
prune, analysis creation, solver creation/configuration, material,
displacement constraint, shell thickness, meshing, final recomputation. -/
def claimedStepOrder : List Step :=
  [Step.createCylinder, Step.downgradePrune, Step.createAnalysis,
   Step.createSolver, Step.createMaterial, Step.createConstraint,
   Step.createThickness, Step.createMesh, Step.recompute]

end FreqCylShell

namespace FreqCylShell

/-- Claim C1 (code-bug evidence): calling `setup` with the unrecognized
solver type "unknown" does not complete.  The warning is printed and no
solver object exists, as the claim says, but the unguarded
`analysis.addObject(solver_obj)` on line 118 then references the unassigned
local `solver_obj` and raises an unbound-local error, so `setup` never
returns an analysis. -/
theorem c1_unknown_solvertype_raises :
    errorVar (setup "unknown" "status") = some "solver_obj" ∧
    (errorState (setup "unknown" "status")).map (fun st => st.console.warnings)
      = some [solverWarningMsg "unknown"] ∧
    (errorState (setup "unknown" "status")).map (fun st => solverMembers st.doc)
      = some [] ∧
    (errorState (setup "unknown" "status")).map (fun st =>
        (st.doc.objects.filter (fun o => solverTags.contains o.typeTag)).length)
      = some 0 :=
  ⟨rfl, rfl, rfl, rfl⟩

/-- Claim C2: every call of `setup` with solvertype "calculix" completes and
yields an analysis whose member set contains exactly one solver object — the
"SolverCalculiX" object — and that solver's `AnalysisType` parameter equals
"frequency". -/
theorem c2_calculix_one_solver_frequency (s e : String) (h : s = "calculix") :
    ((setup s e).toOption.map (fun st =>
        (solverMembers st.doc, st.doc.getProp "SolverCalculiX" "AnalysisType")))
      = some (["SolverCalculiX"], some (PropValue.str "frequency")) := by
  subst h; rfl

/-- Witness for C2 at solvertype "calculix". -/
theorem c2_calculix_one_solver_frequency_witness :
    ("calculix" = "calculix") ∧
    ((setup "calculix" "").toOption.map (fun st =>
        (solverMembers st.doc, st.doc.getProp "SolverCalculiX" "AnalysisType")))
      = some (["SolverCalculiX"], some (PropValue.str "frequency")) :=
  ⟨rfl, c2_calculix_one_solver_frequency "calculix" "" rfl⟩

/-- Claim C3: every call of `setup` with solvertype "ccxtools" (the default)
completes with a solver object whose `WorkingDir` is the empty string and
whose `EigenmodesCount` is 10. -/
theorem c3_ccxtools_workingdir_eigenmodes (s e : String)
    (h : s = "ccxtools") :
    ((setup s e).toOption.map (fun st =>
        (st.doc.getProp "CalculiXccxTools" "WorkingDir",
         st.doc.getProp "CalculiXccxTools" "EigenmodesCount")))
      = some (some (PropValue.str ""), some (PropValue.int 10)) := by
  subst h; rfl

/-- Witness for C3 at solvertype "ccxtools". -/
theorem c3_ccxtools_workingdir_eigenmodes_witness :
    ("ccxtools" = "ccxtools") ∧
    ((setup "ccxtools" "").toOption.map (fun st =>
        (st.doc.getProp "CalculiXccxTools" "WorkingDir",
         st.doc.getProp "CalculiXccxTools" "EigenmodesCount")))
      = some (some (PropValue.str ""), some (PropValue.int 10)) :=
  ⟨rfl, c3_ccxtools_workingdir_eigenmodes "ccxtools" "" rfl⟩

/-- Claim C4: after the geometry-reduction step (downgrade of the cylinder
into its boundary faces with deletion of the solid, then removal of the
auxiliary faces "Face001" and "Face002"), the document contains exactly one
face-type object — the face "Face" used for meshing — and neither the
cylinder nor the auxiliary faces remain. -/
theorem c4_geometry_single_face :
    faceCount (geometryStep initState).doc = 1 ∧
    (geometryStep initState).doc.getObject "Face" =
      some ⟨"Face", faceTag, []⟩ ∧
    (geometryStep initState).doc.getObject "Face001" = none ∧
    (geometryStep initState).doc.getObject "Face002" = none ∧
    (geometryStep initState).doc.getObject "Cylinder" = none :=
  ⟨rfl, rfl, rfl, rfl, rfl⟩

/-- Claim C5: every completing call of `setup` (solvertype "calculix" or
"ccxtools"; any other raises before the constraint is created) attaches a
displacement constraint that references edge "Edge2" of the remaining face
"Face", leaves x and y free (`xFix`/`yFix` false, `xFree`/`yFree` true) and
fixes z (`zFix` true, `zFree` false) — so each axis's fixed and free flags
are mutually exclusive — with displacement 0.0 on the fixed z axis (and on
the free axes as assigned). -/
theorem c5_constraint_fixes_z_only (s e : String)
    (h : s = "calculix" ∨ s = "ccxtools") :
    ((setup s e).toOption.map (fun st =>
        (st.doc.getProp "Fix_Z" "References",
         st.doc.getProp "Fix_Z" "xFix", st.doc.getProp "Fix_Z" "xFree",
         st.doc.getProp "Fix_Z" "xDisplacement",
         st.doc.getProp "Fix_Z" "yFix", st.doc.getProp "Fix_Z" "yFree",
         st.doc.getProp "Fix_Z" "yDisplacement",
         st.doc.getProp "Fix_Z" "zFix", st.doc.getProp "Fix_Z" "zFree",
         st.doc.getProp "Fix_Z" "zDisplacement",
         (analysisMembers st.doc).contains "Fix_Z")))
      = some (some (PropValue.refs [("Face", "Edge2")]),
          some (PropValue.bool false), some (PropValue.bool true),
          some (PropValue.rat 0.0),
          some (PropValue.bool false), some (PropValue.bool true),
          some (PropValue.rat 0.0),
          some (PropValue.bool true), some (PropValue.bool false),
          some (PropValue.rat 0.0), true) := by
  rcases h with rfl | rfl <;> rfl

/-- Witness for C5 at solvertype "ccxtools". -/
theorem c5_constraint_fixes_z_only_witness :
    ("ccxtools" = "calculix" ∨ "ccxtools" = "ccxtools") ∧
    ((setup "ccxtools" "").toOption.map (fun st =>
        (st.doc.getProp "Fix_Z" "References",
         st.doc.getProp "Fix_Z" "xFix", st.doc.getProp "Fix_Z" "xFree",
         st.doc.getProp "Fix_Z" "xDisplacement",
         st.doc.getProp "Fix_Z" "yFix", st.doc.getProp "Fix_Z" "yFree",
         st.doc.getProp "Fix_Z" "yDisplacement",
         st.doc.getProp "Fix_Z" "zFix", st.doc.getProp "Fix_Z" "zFree",
         st.doc.getProp "Fix_Z" "zDisplacement",
         (analysisMembers st.doc).contains "Fix_Z")))
      = some (some (PropValue.refs [("Face", "Edge2")]),
          some (PropValue.bool false), some (PropValue.bool true),
          some (PropValue.rat 0.0),
          some (PropValue.bool false), some (PropValue.bool true),
          some (PropValue.rat 0.0),
          some (PropValue.bool true), some (PropValue.bool false),
          some (PropValue.rat 0.0), true) :=
  ⟨Or.inr rfl, c5_constraint_fixes_z_only "ccxtools" "" (Or.inr rfl)⟩

/-- Claim C6: every completing call of `setup` attaches a material object to
the analysis whose property mapping carries `YoungsModulus` "210 GPa",
`PoissonRatio` "0.30" and `Density` "7900 kg/m^3", stored as unit-bearing
strings. -/
theorem c6_material_property_values (s e : String)
    (h : s = "calculix" ∨ s = "ccxtools") :
    ((setup s e).toOption.map (fun st =>
        (materialEntry st.doc "YoungsModulus",
         materialEntry st.doc "PoissonRatio",
         materialEntry st.doc "Density",
         (analysisMembers st.doc).contains "MechanicalMaterial")))
      = some (some "210 GPa", some "0.30", some "7900 kg/m^3", true) := by
  rcases h with rfl | rfl <;> rfl

/-- Witness for C6 at solvertype "calculix". -/
theorem c6_material_property_values_witness :
    ("calculix" = "calculix" ∨ "calculix" = "ccxtools") ∧
    ((setup "calculix" "").toOption.map (fun st =>
        (materialEntry st.doc "YoungsModulus",
         materialEntry st.doc "PoissonRatio",
         materialEntry st.doc "Density",
         (analysisMembers st.doc).contains "MechanicalMaterial")))
      = some (some "210 GPa", some "0.30", some "7900 kg/m^3", true) :=
  ⟨Or.inl rfl, c6_material_property_values "calculix" "" (Or.inl rfl)⟩

/-- Claim C7 (counterexample): the claim quantifies over every call of
`setup`, but with the unrecognized solver type "nosolver" the call raises at
line 118 and never returns: no mesh step, no final recomputation, no
returned document — refuting the claim as stated. -/
theorem c7_counterexample_unrecognized :
    (setup "nosolver" "status").toOption = none ∧
    (errorState (setup "nosolver" "status")).map (fun st =>
        st.trace.contains Step.createMesh) = some false :=
  ⟨rfl, rfl⟩

/-- Claim C7 (amended): every call of `setup` with a recognized solver type
("calculix" or "ccxtools") completes, its step trace is exactly `fullTrace`,
and the claimed step order — cylinder creation, downgrade-and-prune,
analysis creation, solver creation/configuration, material, displacement
constraint, shell thickness, meshing, final recomputation — is a subsequence
of that trace, with the final recomputation last. -/
theorem c7_amended_step_order (s e : String)
    (h : s = "calculix" ∨ s = "ccxtools") :
    ((setup s e).toOption.map SetupState.trace) = some fullTrace ∧
    claimedStepOrder.Sublist fullTrace ∧
    fullTrace.getLast? = some Step.recompute := by
  refine ⟨?_, by decide, rfl⟩
  rcases h with rfl | rfl <;> rfl

/-- Witness for C7 (amended) at solvertype "calculix". -/
theorem c7_amended_step_order_witness :
    ("calculix" = "calculix" ∨ "calculix" = "ccxtools") ∧
    (((setup "calculix" "").toOption.map SetupState.trace) = some fullTrace ∧
      claimedStepOrder.Sublist fullTrace ∧
      fullTrace.getLast? = some Step.recompute) :=
  ⟨Or.inl rfl, c7_amended_step_order "calculix" "" (Or.inl rfl)⟩

/-- Claim C8: every call of `setup` that reaches the meshing step (that is,
every completing call) prints the status string returned by the external
mesh-generation call to the console, whatever its content: the console's
message list is exactly that string. -/
theorem c8_mesh_status_printed (s e : String)
    (h : s = "calculix" ∨ s = "ccxtools") :
    ((setup s e).toOption.map (fun st => st.console.messages)) = some [e] := by
  rcases h with rfl | rfl <;> rfl

/-- Witness for C8 at solvertype "ccxtools" with a failure-text status. -/
theorem c8_mesh_status_printed_witness :
    ("ccxtools" = "calculix" ∨ "ccxtools" = "ccxtools") ∧
    ((setup "ccxtools" "meshing failed").toOption.map (fun st =>
        st.console.messages)) = some ["meshing failed"] :=
  ⟨Or.inr rfl, c8_mesh_status_printed "ccxtools" "meshing failed" (Or.inr rfl)⟩

/-- Claim C9: every completing call of `setup` attaches a shell-thickness
object created with the fixed thickness value 10 (host length units). -/
theorem c9_shell_thickness_ten (s e : String)
    (h : s = "calculix" ∨ s = "ccxtools") :
    ((setup s e).toOption.map (fun st =>
        (st.doc.getProp "ShellThickness" "Thickness",
         (analysisMembers st.doc).contains "ShellThickness")))
      = some (some (PropValue.int 10), true) := by
  rcases h with rfl | rfl <;> rfl

/-- Witness for C9 at solvertype "ccxtools". -/
theorem c9_shell_thickness_ten_witness :
    ("ccxtools" = "calculix" ∨ "ccxtools" = "ccxtools") ∧
    ((setup "ccxtools" "").toOption.map (fun st =>
        (st.doc.getProp "ShellThickness" "Thickness",
         (analysisMembers st.doc).contains "ShellThickness")))
      = some (some (PropValue.int 10), true) :=
  ⟨Or.inr rfl, c9_shell_thickness_ten "ccxtools" "" (Or.inr rfl)⟩

/-- Claim C10: in every completing call of `setup`, `analysis.addObject` is
invoked with the material object exactly twice — once at its creation on
line 121 and once again on line 130 after its properties are assigned — so
the attach-request log records "MechanicalMaterial" twice. -/
theorem c10_material_attached_twice (s e : String)
    (h : s = "calculix" ∨ s = "ccxtools") :
    ((setup s e).toOption.map (fun st =>
        st.attachLog.count "MechanicalMaterial")) = some 2 := by
  rcases h with rfl | rfl <;> rfl

/-- Witness for C10 at solvertype "calculix". -/
theorem c10_material_attached_twice_witness :
    ("calculix" = "calculix" ∨ "calculix" = "ccxtools") ∧
    ((setup "calculix" "").toOption.map (fun st =>
        st.attachLog.count "MechanicalMaterial")) = some 2 :=
  ⟨Or.inl rfl, c10_material_attached_twice "calculix" "" (Or.inl rfl)⟩

end FreqCylShell
